import Mathlib

/-!
# Verification of the ytdl-patched extractor plugins

Shallow embedding of the extractor modules of this repository:

* `src/youtube_dl/extractor/mildom.py`   — `MildomBaseIE` (dispatcher-config
  cache, guest-id resolver, proxy host selection), `MildomIE`,
  `MildomUserVodIE` (paginated VOD listing);
* `src/yt_dlp/extractor/__init__.py`     — the extractor registry
  (`_ALL_CLASSES`, `gen_extractor_classes`);
* `src/yt_dlp/extractor/nhk.py`          — `NhkForSchoolSubjectIE` /
  `NhkForSchoolProgramListIE` URL patterns and `suitable`;
* `src/yt_dlp/extractor/twitcasting.py`  — `TwitCastingIE`,
  `TwitCastingLiveIE`, `TwitCastingUserIE`.

External collaborators (HTTP transport, JSON parsing, the cookie jar) are
modelled as an environment record; the distinguishable outcomes of a
remote call are `Option`/`Except` values.  Mutable class attributes
(`_GUEST_ID`, `_DISPATCHER_CONFIG`) are threaded explicitly as a state
record, and every function additionally reports instrumentation (which
endpoints were attempted, how many times a fetch chain ran) so that the
memoization and fallback behaviour is observable in the model.
-/

namespace YtdlPatched

/-! ## Mildom base extractor (`src/youtube_dl/extractor/mildom.py`)

`MildomBaseIE` keeps two memoized class attributes:

    _GUEST_ID = None
    _DISPATCHER_CONFIG = None

`_GUEST_ID` is a Python string or `None`; its truthiness test
(`if self._GUEST_ID:`) is false both for `None` and for the empty string, so
we model it as `Option String` and test emptiness explicitly.
`_DISPATCHER_CONFIG` is `None` or a JSON object that must carry the
`location` / `country` / `cluster` fields consumed by `_common_queries`;
such an object is a non-empty dict, hence truthy, so it is modelled as
`Option DispCfg` with `none` for the unset state. -/

/-- The dispatcher-config blob: the fields of the JSON object that
`_common_queries` reads (`dc['location']`, `dc['country']`, `dc['cluster']`). -/
structure DispCfg where
  location : String
  country : String
  cluster : String
deriving DecidableEq, Repr

/-- Outcomes of the external collaborators (network, cookie jar) that the
Mildom code calls.  `none` models a call that raises `ExtractorError`
(transport or parse failure) or a missing/null value, as noted per field. -/
structure MildomEnv where
  /-- Result of `_download_json('https://disp.mildom.com/serverListV2', ...)`
  followed by base64-decoding and `_parse_json`: `none` when that chain
  raises `ExtractorError`. -/
  primaryDispatcher : Option DispCfg
  /-- Result of `_download_json('https://<proxy>/api/mildom/dispatcher_config')`:
  `none` when it raises (the exception then propagates out). -/
  fallbackDispatcher : Option DispCfg
  /-- The `guest_id` field of the body returned by the
  `guest/h5init` API call: `none` when the call fails or the field is
  absent or null; `some v` when it is the string `v`. -/
  h5initGuestId : Option String
  /-- The value of the `gid` cookie for `https://www.mildom.com`
  (`none` when the cookie jar has no such cookie). -/
  wwwGid : Option String
  /-- The value of the `gid` cookie for `https://m.mildom.com`. -/
  mGid : Option String
  /-- `iso_timestamp()` (wall clock, opaque here). -/
  timestamp : String

/-- The memoized class attributes of `MildomBaseIE`. -/
structure MildomState where
  _GUEST_ID : Option String := none
  _DISPATCHER_CONFIG : Option DispCfg := none
deriving DecidableEq, Repr

/-- Which dispatcher endpoints a call to `_fetch_dispatcher_config`
actually contacted, in order. -/
inductive DispatcherEndpoint
  | primary
  | fallback
deriving DecidableEq, Repr

/-- `MildomBaseIE._fetch_dispatcher_config` (mildom.py lines 53-78):

    if not self._DISPATCHER_CONFIG:
        try:
            tmp = self._download_json('https://disp.mildom.com/serverListV2', ...)
            self._DISPATCHER_CONFIG = self._parse_json(base64.b64decode(tmp['data']), ...)
        except ExtractorError:
            self._DISPATCHER_CONFIG = self._download_json(
                'https://%s/api/mildom/dispatcher_config' % self._mildom_proxy_host(), ...)
    return self._DISPATCHER_CONFIG

Returns the config (or `Except.error ()` when primary and fallback both
raise — the fallback's exception propagates), the updated state, and the
list of endpoints attempted by this call. -/
def fetchDispatcherConfig (env : MildomEnv) (s : MildomState) :
    Except Unit DispCfg × MildomState × List DispatcherEndpoint :=
  match s._DISPATCHER_CONFIG with
  | some c => (Except.ok c, s, [])
  | none =>
    match env.primaryDispatcher with
    | some c => (Except.ok c, { s with _DISPATCHER_CONFIG := some c },
        [DispatcherEndpoint.primary])
    | none =>
      match env.fallbackDispatcher with
      | some c => (Except.ok c, { s with _DISPATCHER_CONFIG := some c },
          [DispatcherEndpoint.primary, DispatcherEndpoint.fallback])
      | none => (Except.error (), s,
          [DispatcherEndpoint.primary, DispatcherEndpoint.fallback])

/-- Python `dict.update`: keys already present are overwritten in place,
new keys are appended in order. -/
def updateEntry (overrides : List (String × String)) (kv : String × String) :
    String × String :=
  match overrides.find? (fun ov => ov.1 = kv.1) with
  | some ov => ov
  | none => kv

def dictUpdate (base overrides : List (String × String)) : List (String × String) :=
  base.map (updateEntry overrides) ++
  overrides.filter (fun ov => !(base.any (fun kv => kv.1 = ov.1)))

/-- Key lookup in an association list (Python `r['key']`, first binding wins). -/
def lookupAssoc (l : List (String × String)) (k : String) : Option String :=
  (l.find? (fun kv => kv.1 = k)).map (fun kv => kv.2)

/-- The dict literal built by `_common_queries` (mildom.py lines 38-51),
followed by `r.update(query)`.  `gid` is the value of the
`'' if init else self.guest_id()` expression; `'__la'` is `lang_code()`
which always returns `'ja'` (lines 99-101). -/
def buildQueries (env : MildomEnv) (dc : DispCfg) (gid : String)
    (query : List (String × String)) : List (String × String) :=
  dictUpdate
    [("timestamp", env.timestamp),
     ("__guest_id", gid),
     ("__location", dc.location),
     ("__country", dc.country),
     ("__cluster", dc.cluster),
     ("__platform", "web"),
     ("__la", "ja"),
     ("__pcv", "v2.9.44"),
     ("sfr", "pc"),
     ("accessToken", "")]
    query

/-- `_common_queries(query, init=True)` — the branch taken by the `h5init`
call issued from `guest_id`.  It fetches the dispatcher config (raising if
both endpoints fail) and fills `'__guest_id'` with `''` without ever
calling `guest_id`. -/
def commonQueriesInit (env : MildomEnv) (s : MildomState)
    (query : List (String × String)) :
    Except Unit (List (String × String)) × MildomState × List DispatcherEndpoint :=
  match fetchDispatcherConfig env s with
  | (Except.error _, s1, atts) => (Except.error (), s1, atts)
  | (Except.ok dc, s1, atts) => (Except.ok (buildQueries env dc "" query), s1, atts)

/-- The first producer of the guest-id chain (mildom.py lines 91-93):
`x._call_api('https://cloudac.mildom.com/nonolive/gappserv/guest/h5init',
'initialization', note=..., init=True)['guest_id'] or None`.  The API call
runs `_common_queries` with `init=True` (a possible state change to the
dispatcher cache); when it fails the producer yields no value, and
`or None` maps an empty-string `guest_id` field to no value. -/
def h5initProducer (env : MildomEnv) (s : MildomState) : Option String :=
  match (commonQueriesInit env s []).1 with
  | Except.error _ => none
  | Except.ok _ => env.h5initGuestId.bind (fun v => if v = "" then none else some v)

/-- One run of the guest-id source chain, mildom.py lines 89-96:

    try_get(self, (
        lambda x: x._call_api('https://cloudac.mildom.com/nonolive/gappserv/guest/h5init',
                              'initialization', note=..., init=True)['guest_id'] or None,
        lambda x: x._get_cookies('https://www.mildom.com').get('gid').value,
        lambda x: x._get_cookies('https://m.mildom.com').get('gid').value,
    ), compat_str) or ''

The first producer issues the `h5init` API call with `init=True`, which in
turn runs `_common_queries` and hence `_fetch_dispatcher_config` (a state
change); `['guest_id'] or None` maps an empty-string field to no value.
A producer that fails yields no value and the chain falls through to the
next one (`try_get` is modelled from the spec's fallback-combinator
contract; see `firstUsableCount` below).  The chain's value, or `''` when
every source is unavailable, is stored into `_GUEST_ID`.  Returns the
stored string, the new state and the dispatcher endpoints contacted. -/
def guestChain (env : MildomEnv) (s : MildomState) :
    String × MildomState × List DispatcherEndpoint :=
  match commonQueriesInit env s [] with
  | (_, s1, atts) =>
    let a : Option String := h5initProducer env s
    let v : Option String := (a.orElse fun _ => env.wwwGid).orElse fun _ => env.mGid
    let g : String := v.getD ""
    (g, { s1 with _GUEST_ID := some g }, atts)

/-- `MildomBaseIE.guest_id` (mildom.py lines 85-97):

    if self._GUEST_ID:
        return self._GUEST_ID
    self._GUEST_ID = try_get(...) or ''
    return self._GUEST_ID

The guard is Python truthiness: it returns the memoized value only when
`_GUEST_ID` is a non-empty string; both `None` and `''` re-run the chain.
The `Nat` component counts how many times this call ran the source chain
(0 or 1). -/
def guestId (env : MildomEnv) (s : MildomState) :
    String × MildomState × Nat × List DispatcherEndpoint :=
  match s._GUEST_ID with
  | some g =>
    if g = "" then
      match guestChain env s with
      | (g', s', atts) => (g', s', 1, atts)
    else (g, s, 0, [])
  | none =>
    match guestChain env s with
    | (g', s', atts) => (g', s', 1, atts)

/-- Instrumentation of one `_common_queries` call: how many times
`self.guest_id()` was invoked while building the dict, how many times the
guest-id source chain actually ran, and the dispatcher endpoints contacted. -/
structure QueryInstr where
  guestIdInvocations : Nat
  guestChainRuns : Nat
  dispatcherAttempts : List DispatcherEndpoint
deriving DecidableEq, Repr

/-- `MildomBaseIE._common_queries` (mildom.py lines 36-51):

    dc = self._fetch_dispatcher_config()
    r = { 'timestamp': ..., '__guest_id': '' if init else self.guest_id(), ... }
    r.update(query)
    return r

When the dispatcher fetch raises, the exception propagates before the dict
literal is evaluated (so `guest_id` is not reached). -/
def commonQueries (env : MildomEnv) (s : MildomState)
    (query : List (String × String)) (init : Bool) :
    Except Unit (List (String × String)) × MildomState × QueryInstr :=
  match fetchDispatcherConfig env s with
  | (Except.error _, s1, atts) => (Except.error (), s1, ⟨0, 0, atts⟩)
  | (Except.ok dc, s1, atts) =>
    if init then
      (Except.ok (buildQueries env dc "" query), s1, ⟨0, 0, atts⟩)
    else
      match guestId env s1 with
      | (gid, s2, runs, atts2) =>
        (Except.ok (buildQueries env dc gid query), s2, ⟨1, runs, atts ++ atts2⟩)

/-- `n` sequential calls to `guest_id` with no invalidation in between,
returning the final state and the total number of source-chain runs. -/
def guestIdCalls (env : MildomEnv) (s : MildomState) : Nat → MildomState × Nat
  | 0 => (s, 0)
  | n + 1 =>
    match guestId env s with
    | (_, s', r, _) =>
      match guestIdCalls env s' n with
      | (s'', total) => (s'', r + total)

/-- `n` sequential calls to `_fetch_dispatcher_config`, returning the final
state and the total number of endpoint attempts made. -/
def dispatcherCalls (env : MildomEnv) (s : MildomState) : Nat → MildomState × Nat
  | 0 => (s, 0)
  | n + 1 =>
    match fetchDispatcherConfig env s with
    | (_, s', atts) =>
      match dispatcherCalls env s' n with
      | (s'', total) => (s'', atts.length + total)

/-- Modelled from the spec: the first-non-null-of-N-lazy-sources combinator
(`try_get` in the source; its definition lives outside `src/`): "given an
ordered sequence of zero-argument producers, evaluate lazily in order,
return the first result that is non-null and of the expected type,
short-circuiting remaining producers."  A producer returns `none` when it
yields null, a value of the wrong type, or fails.  The second component
counts how many producers were evaluated, so that short-circuiting is
observable: the producers beyond the first success are never run. -/
def firstUsableCount {α : Type} : List (Unit → Option α) → Option α × Nat
  | [] => (none, 0)
  | p :: rest =>
    match p () with
    | some v => (some v, 1)
    | none =>
      match firstUsableCount rest with
      | (r, n) => (r, n + 1)

/-! ## Helper lemmas (shared) -/

theorem fetchDispatcherConfig_cached (env : MildomEnv) (s : MildomState) (c : DispCfg)
    (h : s._DISPATCHER_CONFIG = some c) :
    fetchDispatcherConfig env s = (Except.ok c, s, []) := by
  simp [fetchDispatcherConfig, h]

theorem fetchDispatcherConfig_ok_caches (env : MildomEnv) (s : MildomState) (c : DispCfg)
    (h : (fetchDispatcherConfig env s).1 = Except.ok c) :
    ((fetchDispatcherConfig env s).2.1)._DISPATCHER_CONFIG = some c := by
  cases hd : s._DISPATCHER_CONFIG with
  | some c' =>
    rw [fetchDispatcherConfig_cached env s c' hd] at h ⊢
    cases h
    exact hd
  | none =>
    cases hp : env.primaryDispatcher with
    | some c' => simp_all [fetchDispatcherConfig]
    | none =>
      cases hf : env.fallbackDispatcher with
      | some c' => simp_all [fetchDispatcherConfig]
      | none => simp_all [fetchDispatcherConfig]

theorem dispatcherCalls_zero (env : MildomEnv) (s : MildomState) (c : DispCfg)
    (h : s._DISPATCHER_CONFIG = some c) :
    ∀ n, dispatcherCalls env s n = (s, 0) := by
  intro n
  induction n with
  | zero => rfl
  | succ n ih =>
    show dispatcherCalls env s (n + 1) = (s, 0)
    rw [dispatcherCalls, fetchDispatcherConfig_cached env s c h]
    simp [ih]

theorem guestId_memo (env : MildomEnv) (s : MildomState) (g : String)
    (h : s._GUEST_ID = some g) (hg : g ≠ "") :
    guestId env s = (g, s, 0, []) := by
  simp [guestId, h, hg]

theorem guestId_stores (env : MildomEnv) (s : MildomState) :
    ((guestId env s).2.1)._GUEST_ID = some ((guestId env s).1) := by
  cases hG : s._GUEST_ID with
  | none => simp [guestId, guestChain, hG]
  | some g =>
    by_cases hg : g = ""
    · simp [guestId, guestChain, hG, hg]
    · simp [guestId, hG, hg]

theorem guestIdCalls_zero (env : MildomEnv) (s : MildomState) (g : String)
    (h : s._GUEST_ID = some g) (hg : g ≠ "") :
    ∀ n, guestIdCalls env s n = (s, 0) := by
  intro n
  induction n with
  | zero => rfl
  | succ n ih =>
    show guestIdCalls env s (n + 1) = (s, 0)
    rw [guestIdCalls, guestId_memo env s g h hg]
    simp [ih]

theorem updateEntry_key (overrides : List (String × String)) (kv : String × String) :
    (updateEntry overrides kv).1 = kv.1 := by
  unfold updateEntry
  cases hf : overrides.find? (fun ov => ov.1 = kv.1) with
  | none => rfl
  | some ov => simpa using List.find?_some hf

theorem lookupAssoc_dictUpdate_absent (base query : List (String × String)) (k : String)
    (hq : ∀ kv ∈ query, ¬ kv.1 = k) :
    lookupAssoc (dictUpdate base query) k = lookupAssoc base k := by
  unfold lookupAssoc dictUpdate
  rw [List.find?_append, List.find?_map]
  have hpred : ((fun kv : String × String => decide (kv.1 = k)) ∘ updateEntry query) =
      fun kv : String × String => decide (kv.1 = k) := by
    funext kv
    simp [Function.comp, updateEntry_key]
  rw [hpred]
  have hfilter :
      (query.filter (fun ov => !(base.any (fun kv => kv.1 = ov.1)))).find?
        (fun kv : String × String => kv.1 = k) = none := by
    refine List.find?_eq_none.mpr (fun kv hkv => ?_)
    have : kv ∈ query := (List.mem_filter.mp hkv).1
    simpa using hq kv this
  rw [hfilter]
  cases hb : base.find? (fun kv : String × String => kv.1 = k) with
  | none => simp
  | some kv₀ =>
    have hk : kv₀.1 = k := by simpa using List.find?_some hb
    have hupd : updateEntry query kv₀ = kv₀ := by
      unfold updateEntry
      rw [hk]
      rw [List.find?_eq_none.mpr (fun kv hkv => by simpa using hq kv hkv)]
    simp [hupd]

theorem lookupAssoc_buildQueries_guest (env : MildomEnv) (dc : DispCfg) (g : String)
    (query : List (String × String)) (hq : ∀ kv ∈ query, ¬ kv.1 = "__guest_id") :
    lookupAssoc (buildQueries env dc g query) "__guest_id" = some g := by
  rw [buildQueries, lookupAssoc_dictUpdate_absent _ _ _ hq]
  simp [lookupAssoc]

/-! ## Claim theorems: Mildom session state -/

/-- An environment in which the dispatcher works but no guest-id source
yields a usable value: the `h5init` call succeeds with an empty `guest_id`
field (which `or None` discards) and neither cookie jar has a `gid` cookie
(the `.get('gid').value` lookup fails with an `AttributeError`, one of the
exception kinds `try_get` swallows). -/
def envNoUsableGuest : MildomEnv :=
  { primaryDispatcher := some ⟨"jp", "JP", "aws_japan"⟩, fallbackDispatcher := none,
    h5initGuestId := some "", wwwGid := none, mGid := none,
    timestamp := "2021-01-01T00:00:00.000Z" }

/-- An environment in which the primary dispatcher endpoint succeeds and the
`h5init` call returns a non-empty guest id. -/
def envHappy : MildomEnv :=
  { primaryDispatcher := some ⟨"jp", "JP", "aws_japan"⟩, fallbackDispatcher := none,
    h5initGuestId := some "pc-gp-1111", wwwGid := none, mGid := none,
    timestamp := "2021-01-01T00:00:00.000Z" }

/-- C2, counterexample: the claim "once a first call has completed, every
subsequent call returns the memoized value and never re-runs the fetch
chain" is false for `guest_id`.  When no source yields a usable value the first
call completes (the `h5init` request itself succeeds) and stores `''`;
the Python truthiness guard
`if self._GUEST_ID:` treats `''` like `None`, so the second call re-runs
the whole source chain: two sequential calls perform two chain runs, not
at most one. -/
theorem guestId_two_calls_two_chain_runs :
    ¬ ((guestIdCalls envNoUsableGuest {} 2).2 ≤ 1) := by decide

/-- C2 (amended): memoization holds once a call has produced a *usable*
value.  After `_fetch_dispatcher_config` succeeds, re-calling it returns
the cached config with no endpoint attempts, and any number of further
calls makes zero attempts; after `guest_id` returns a non-empty string,
re-calling it returns that string without running the source chain, and
any number of further calls runs the chain zero times. -/
theorem session_memoized_after_success (env : MildomEnv) (s : MildomState) :
    (∀ c, (fetchDispatcherConfig env s).1 = Except.ok c →
        fetchDispatcherConfig env (fetchDispatcherConfig env s).2.1 =
          (Except.ok c, (fetchDispatcherConfig env s).2.1, []) ∧
        ∀ n, (dispatcherCalls env (fetchDispatcherConfig env s).2.1 n).2 = 0) ∧
    ((guestId env s).1 ≠ "" →
        guestId env (guestId env s).2.1 =
          ((guestId env s).1, (guestId env s).2.1, 0, []) ∧
        ∀ n, (guestIdCalls env (guestId env s).2.1 n).2 = 0) := by
  constructor
  · intro c hc
    have hcache := fetchDispatcherConfig_ok_caches env s c hc
    exact ⟨fetchDispatcherConfig_cached env _ c hcache,
      fun n => by rw [dispatcherCalls_zero env _ c hcache n]⟩
  · intro hg
    have hstore := guestId_stores env s
    exact ⟨guestId_memo env _ _ hstore hg,
      fun n => by rw [guestIdCalls_zero env _ _ hstore hg n]⟩

/-- C2 witness: in `envHappy` the dispatcher fetch succeeds and the guest
id is non-empty, so three further calls to either cache make zero
attempts/chain runs. -/
theorem session_memoized_after_success_witness :
    (dispatcherCalls envHappy (fetchDispatcherConfig envHappy {}).2.1 3).2 = 0 ∧
    (guestIdCalls envHappy (guestId envHappy {}).2.1 3).2 = 0 :=
  ⟨((session_memoized_after_success envHappy {}).1 ⟨"jp", "JP", "aws_japan"⟩ rfl).2 3,
   ((session_memoized_after_success envHappy {}).2 (by decide)).2 3⟩

/-- C3: on a cold state, `guest_id` tries the `h5init` API, then the
`www.mildom.com` `gid` cookie, then the `m.mildom.com` `gid` cookie, each
later source only when every earlier one produced no usable value, and it
returns the empty string when all three are unavailable (it never fails). -/
theorem guest_id_soft_fail (env : MildomEnv) (s : MildomState)
    (h : s._GUEST_ID = none) :
    ((h5initProducer env s = none ∧ env.wwwGid = none ∧ env.mGid = none) →
        (guestId env s).1 = "") ∧
    (∀ v, h5initProducer env s = some v → (guestId env s).1 = v) ∧
    (∀ v, h5initProducer env s = none → env.wwwGid = some v →
        (guestId env s).1 = v) ∧
    (∀ v, h5initProducer env s = none → env.wwwGid = none → env.mGid = some v →
        (guestId env s).1 = v) := by
  refine ⟨fun ⟨ha, hw, hm⟩ => ?_, fun v ha => ?_, fun v ha hw => ?_,
    fun v ha hw hm => ?_⟩ <;>
    simp [guestId, guestChain, h, ha, Option.orElse] <;>
    simp [hw] <;> simp [hm]

/-- C3 witness: with every source unavailable, `guest_id` returns `''`. -/
theorem guest_id_soft_fail_witness : (guestId envNoUsableGuest {}).1 = "" :=
  (guest_id_soft_fail envNoUsableGuest {} rfl).1 ⟨rfl, rfl, rfl⟩

/-- C4: on a cold state, `_fetch_dispatcher_config` attempts the primary
`serverListV2` endpoint first; exactly when the primary fails it attempts
the single proxy-routed `dispatcher_config` fallback (no further retry),
and the lookup fails only when both endpoints fail. -/
theorem fetch_dispatcher_two_tier (env : MildomEnv) (s : MildomState)
    (h : s._DISPATCHER_CONFIG = none) :
    (∀ c, env.primaryDispatcher = some c →
        fetchDispatcherConfig env s =
          (Except.ok c, { s with _DISPATCHER_CONFIG := some c },
           [DispatcherEndpoint.primary])) ∧
    (env.primaryDispatcher = none →
        (fetchDispatcherConfig env s).2.2 =
          [DispatcherEndpoint.primary, DispatcherEndpoint.fallback] ∧
        (∀ c, env.fallbackDispatcher = some c →
            (fetchDispatcherConfig env s).1 = Except.ok c) ∧
        (env.fallbackDispatcher = none →
            (fetchDispatcherConfig env s).1 = Except.error ())) := by
  refine ⟨fun c hc => by simp [fetchDispatcherConfig, h, hc], fun hp => ?_⟩
  cases hf : env.fallbackDispatcher <;> simp [fetchDispatcherConfig, h, hp, hf]

/-- C4 witness: with a working primary endpoint, the single call contacts
only the primary endpoint and caches its config. -/
theorem fetch_dispatcher_two_tier_witness :
    fetchDispatcherConfig envHappy {} =
      (Except.ok ⟨"jp", "JP", "aws_japan"⟩,
       { _GUEST_ID := none, _DISPATCHER_CONFIG := some ⟨"jp", "JP", "aws_japan"⟩ },
       [DispatcherEndpoint.primary]) :=
  (fetch_dispatcher_two_tier envHappy {} rfl).1 ⟨"jp", "JP", "aws_japan"⟩ rfl

/-- C5: the first-non-null-of-N-lazy-sources combinator evaluates producers
in order and stops at the first usable value: when every producer of `ps₁`
yields nothing and `p` yields `x`, the combinator applied to
`ps₁ ++ p :: ps₂` returns `x` having evaluated exactly `ps₁.length + 1`
producers — the producers of `ps₂` are never evaluated. -/
theorem first_usable_short_circuits {α : Type} (ps₁ ps₂ : List (Unit → Option α))
    (p : Unit → Option α) (x : α)
    (h₁ : ∀ q ∈ ps₁, q () = none) (hp : p () = some x) :
    firstUsableCount (ps₁ ++ p :: ps₂) = (some x, ps₁.length + 1) := by
  induction ps₁ with
  | nil => simp [firstUsableCount, hp]
  | cons q qs ih =>
    have hq : q () = none := h₁ q (by simp)
    have hrec := ih (fun r hr => h₁ r (by simp [hr]))
    simp [firstUsableCount, hq, hrec]

/-- C5 witness: for producers `[null, null, "X", "Y"]` the combinator
returns `"X"` and evaluates exactly three producers, never the fourth. -/
theorem first_usable_short_circuits_witness :
    firstUsableCount [fun _ => (none : Option String), fun _ => none,
      fun _ => some "X", fun _ => some "Y"] = (some "X", 3) :=
  first_usable_short_circuits [fun _ => none, fun _ => none] [fun _ => some "Y"]
    (fun _ => some "X") "X"
    (by
      intro q hq
      rcases List.mem_cons.mp hq with rfl | hq2
      · rfl
      · rcases List.mem_cons.mp hq2 with rfl | h
        · rfl
        · simp at h)
    rfl

/-- C10: building the query dict with `init=True` (the shape used by the
guest-id `h5init` request) never invokes `guest_id` and never runs the
guest-id source chain, and — provided the extra query does not override it,
as in the actual call which passes no extra query — the `'__guest_id'`
parameter is the empty string.  Hence acquiring the guest id never
recursively triggers another guest-id acquisition. -/
theorem init_query_guest_id_empty (env : MildomEnv) (s : MildomState)
    (query : List (String × String)) (hq : ∀ kv ∈ query, ¬ kv.1 = "__guest_id") :
    (commonQueries env s query true).2.2.guestIdInvocations = 0 ∧
    (commonQueries env s query true).2.2.guestChainRuns = 0 ∧
    (∀ r, (commonQueries env s query true).1 = Except.ok r →
        lookupAssoc r "__guest_id" = some "") := by
  rcases hf : fetchDispatcherConfig env s with ⟨res, s1, atts⟩
  cases res with
  | error e => simp [commonQueries, hf]
  | ok dc =>
    refine ⟨by simp [commonQueries, hf], by simp [commonQueries, hf], ?_⟩
    intro r hr
    simp only [commonQueries, hf] at hr
    cases hr
    exact lookupAssoc_buildQueries_guest env dc "" query hq

/-- C10 witness: the actual `h5init` request (no extra query) in a working
environment: zero `guest_id` invocations, zero chain runs, and the built
query maps `'__guest_id'` to `''`. -/
theorem init_query_guest_id_empty_witness :
    (commonQueries envHappy {} [] true).2.2.guestIdInvocations = 0 ∧
    (commonQueries envHappy {} [] true).2.2.guestChainRuns = 0 ∧
    lookupAssoc ((commonQueries envHappy {} [] true).1.toOption.getD [])
      "__guest_id" = some "" :=
  ⟨(init_query_guest_id_empty envHappy {} []
      (fun kv hkv => absurd hkv (List.not_mem_nil kv))).1,
   (init_query_guest_id_empty envHappy {} []
      (fun kv hkv => absurd hkv (List.not_mem_nil kv))).2.1,
   (init_query_guest_id_empty envHappy {} []
      (fun kv hkv => absurd hkv (List.not_mem_nil kv))).2.2 _ rfl⟩

/-! ## Extractor registry (`src/yt_dlp/extractor/__init__.py`)

The non-lazy branch builds the ordered extractor list:

    _ALL_CLASSES = [
        klass
        for name, klass in globals().items()
        if name.endswith('IE') and name not in ('GenericIE', 'StreamlinkIE')
    ]
    _ALL_CLASSES.append(GenericIE)
    _PLUGIN_CLASSES = load_plugins('extractor', 'IE', globals())
    _ALL_CLASSES = list(_PLUGIN_CLASSES.values()) + _ALL_CLASSES

and `gen_extractor_classes()` returns `_ALL_CLASSES`; resolution is
first-match over this order. -/

/-- An extractor class: its class name and its URL-matching predicate
(`suitable`). -/
structure ExtractorDesc where
  name : String
  suitable : String → Bool

/-- The list comprehension over `globals().items()`: keep the bindings whose
name ends in `IE` and is neither `GenericIE` nor `StreamlinkIE`, in order. -/
def keptGlobals (globals : List (String × ExtractorDesc)) : List ExtractorDesc :=
  (globals.filter (fun kv =>
    kv.1.endsWith "IE" && !(kv.1 = "GenericIE") && !(kv.1 = "StreamlinkIE"))).map
    Prod.snd

/-- `_ALL_CLASSES` after the `append(GenericIE)` and the plugin prepend:
`list(_PLUGIN_CLASSES.values()) + (kept globals ++ [GenericIE])`. -/
def allClasses (plugins : List ExtractorDesc) (globals : List (String × ExtractorDesc))
    (genericIE : ExtractorDesc) : List ExtractorDesc :=
  plugins ++ (keptGlobals globals ++ [genericIE])

/-- `gen_extractor_classes()`: returns the ordered list; "the first
extractor matched is the one handling the URL". -/
def gen_extractor_classes (plugins : List ExtractorDesc)
    (globals : List (String × ExtractorDesc)) (genericIE : ExtractorDesc) : List ExtractorDesc :=
  allClasses plugins globals genericIE

/-- First-match URL resolution over an ordered extractor list. -/
def resolveUrl (l : List ExtractorDesc) (url : String) : Option ExtractorDesc :=
  l.find? (fun e => e.suitable url)

theorem find?_append_last {l : List ExtractorDesc} {g : ExtractorDesc} {p : ExtractorDesc → Bool}
    (hg : g ∉ l) (h : (l ++ [g]).find? p = some g) :
    ∀ e ∈ l, p e = false := by
  induction l with
  | nil => intro e he; cases he
  | cons a l ih =>
    intro e he
    by_cases hpa : p a
    · exfalso
      rw [List.cons_append, List.find?_cons_of_pos _ hpa] at h
      have hag : a = g := by injection h
      subst hag
      exact hg (List.mem_cons_self a l)
    · rw [List.cons_append, List.find?_cons_of_neg _ hpa] at h
      rcases List.mem_cons.mp he with rfl | he'
      · exact Bool.eq_false_iff.mpr hpa
      · exact ih (fun hm => hg (List.mem_cons_of_mem a hm)) h e he'

/-- C1: in the list returned by `gen_extractor_classes`, plugin extractors
come first and `GenericIE` is the last entry regardless of the plugin or
built-in registration order; consequently, under first-match resolution,
`GenericIE` is returned only when no other extractor in the list matches
the URL.  The hypotheses say that extractor classes carry their binding
name and that no plugin is named `GenericIE` — which is what the
name-based filter of `_ALL_CLASSES` relies on. -/
theorem generic_ie_always_last (plugins : List ExtractorDesc)
    (globals : List (String × ExtractorDesc)) (genericIE : ExtractorDesc) (url : String)
    (hgen : genericIE.name = "GenericIE")
    (hp : ∀ e ∈ plugins, e.name ≠ "GenericIE")
    (hglob : ∀ kv ∈ globals, (kv.2).name = kv.1) :
    gen_extractor_classes plugins globals genericIE =
      plugins ++ (keptGlobals globals ++ [genericIE]) ∧
    (gen_extractor_classes plugins globals genericIE).getLast? = some genericIE ∧
    (resolveUrl (gen_extractor_classes plugins globals genericIE) url =
        some genericIE →
      ∀ e ∈ plugins ++ keptGlobals globals, e.suitable url = false) := by
  have hnotin : genericIE ∉ plugins ++ keptGlobals globals := by
    intro hmem
    rcases List.mem_append.mp hmem with hmp | hmk
    · exact hp genericIE hmp hgen
    · rcases List.mem_map.mp hmk with ⟨kv, hkv, hkv2⟩
      have hkvg : kv ∈ globals := (List.mem_filter.mp hkv).1
      have hcond := (List.mem_filter.mp hkv).2
      have hname : kv.1 ≠ "GenericIE" := by
        intro heq
        simp [heq] at hcond
      exact hname (by rw [← hglob kv hkvg, hkv2, hgen])
  refine ⟨rfl, ?_, ?_⟩
  · show (plugins ++ (keptGlobals globals ++ [genericIE])).getLast? = some genericIE
    rw [← List.append_assoc]
    exact List.getLast?_concat _
  · intro hres
    have h' : ((plugins ++ keptGlobals globals) ++ [genericIE]).find?
        (fun e => e.suitable url) = some genericIE := by
      rw [List.append_assoc]
      exact hres
    exact find?_append_last hnotin h'

/-- C1 witness: a concrete registry — one plugin, two built-in bindings and
the catch-all — where the last entry is `GenericIE` and a URL matched by no
other extractor resolves to it. -/
theorem generic_ie_always_last_witness :
    (gen_extractor_classes
        [⟨"MyPluginIE", fun u => u = "p"⟩]
        [("MildomIE", ⟨"MildomIE", fun u => u = "m"⟩),
         ("GenericIE", ⟨"GenericIE", fun _ => true⟩)]
        ⟨"GenericIE", fun _ => true⟩).getLast? =
      some ⟨"GenericIE", fun _ => true⟩ :=
  (generic_ie_always_last
    [⟨"MyPluginIE", fun u => u = "p"⟩]
    [("MildomIE", ⟨"MildomIE", fun u => u = "m"⟩),
     ("GenericIE", ⟨"GenericIE", fun _ => true⟩)]
    ⟨"GenericIE", fun _ => true⟩ "https://example.com/x" rfl
    (by
      intro e he
      rcases List.mem_cons.mp he with rfl | h
      · decide
      · simp at h)
    (by
      intro kv hkv
      rcases List.mem_cons.mp hkv with rfl | h2
      · rfl
      · rcases List.mem_cons.mp h2 with rfl | h3
        · rfl
        · simp at h3)).2.1

/-! ## NHK for School URL patterns (`src/yt_dlp/extractor/nhk.py`)

`NhkForSchoolSubjectIE._VALID_URL` is
`https?://www\.nhk\.or\.jp/school/(?P<id>rika|syakai|...)` (the alternation
ranges over `KNOWN_SUBJECTS`); `NhkForSchoolProgramListIE._VALID_URL` is
`https?://www\.nhk\.or\.jp/school/(?P<id>(?:rika|...)/[a-zA-Z0-9_-]+)`.
`suitable` is Python `re.match`, i.e. matching anchored at the start of the
URL with the rest unconstrained; no subject name is a prefix of another,
so an alternation is an `any` over the alternatives. -/

/-- `NhkForSchoolSubjectIE.KNOWN_SUBJECTS` (nhk.py lines 243-268). -/
def KNOWN_SUBJECTS : List String :=
  ["rika", "syakai", "kokugo", "sansuu", "seikatsu", "doutoku", "ongaku",
   "taiiku", "zukou", "gijutsu", "katei", "sougou", "eigo", "tokkatsu",
   "tokushi", "sonota"]

/-- `charListStarts p l`: the character sequence `p` is an initial segment
of `l` (regex matching is anchored at the start; URLs are handled as their
character sequences so that all matching is kernel-computable). -/
def charListStarts : List Char → List Char → Bool
  | [], _ => true
  | _ :: _, [] => false
  | p :: ps, c :: cs => p == c && charListStarts ps cs

/-- Match the shared anchored part `https?://www\.nhk\.or\.jp/school/` and
return the remainder of the URL. -/
def schoolRest (url : List Char) : Option (List Char) :=
  if charListStarts "https://www.nhk.or.jp/school/".data url then
    some (url.drop "https://www.nhk.or.jp/school/".data.length)
  else if charListStarts "http://www.nhk.or.jp/school/".data url then
    some (url.drop "http://www.nhk.or.jp/school/".data.length)
  else none

/-- The character class `[a-zA-Z0-9_-]`. -/
def isProgramChar (c : Char) : Bool :=
  c.isAlpha || c.isDigit || c = '_' || c = '-'

/-- `re.match(NhkForSchoolSubjectIE._VALID_URL, url) is not None`. -/
def nhkForSchoolSubjectMatch (url : String) : Bool :=
  match schoolRest url.data with
  | none => false
  | some r => KNOWN_SUBJECTS.any (fun s => charListStarts s.data r)

/-- `re.match(NhkForSchoolProgramListIE._VALID_URL, url) is not None`:
after the subject name comes `/` and at least one `[a-zA-Z0-9_-]`
character. -/
def nhkForSchoolProgramListMatch (url : String) : Bool :=
  match schoolRest url.data with
  | none => false
  | some r =>
    KNOWN_SUBJECTS.any (fun s =>
      charListStarts s.data r &&
      (match r.drop s.data.length with
       | '/' :: c :: _ => isProgramChar c
       | _ => false))

/-- `NhkForSchoolSubjectIE.suitable` (nhk.py lines 289-291):

    return super(NhkForSchoolSubjectIE, cls).suitable(url) and \
        not NhkForSchoolProgramListIE.suitable(url)

(the superclass `suitable` is the `_VALID_URL` match). -/
def nhkForSchoolSubjectSuitable (url : String) : Bool :=
  nhkForSchoolSubjectMatch url && !(nhkForSchoolProgramListMatch url)

/-- `NhkForSchoolProgramListIE.suitable`: the default `_VALID_URL` match. -/
def nhkForSchoolProgramListSuitable (url : String) : Bool :=
  nhkForSchoolProgramListMatch url

/-- C6: every URL matched by the `NhkForSchoolProgramListIE` pattern is
refused by `NhkForSchoolSubjectIE.suitable`, and exactly one of the two
handlers (the program-list one) is suitable for such a URL. -/
theorem subject_never_claims_program_list (url : String)
    (h : nhkForSchoolProgramListMatch url = true) :
    nhkForSchoolSubjectSuitable url = false ∧
    nhkForSchoolProgramListSuitable url = true := by
  exact ⟨by simp [nhkForSchoolSubjectSuitable, h], h⟩

set_option maxRecDepth 8192 in
/-- C6 witness: the subject-portal pattern is a prefix of the program-list
URL `https://www.nhk.or.jp/school/sougou/q/`, yet only the program-list
handler is suitable for it. -/
theorem subject_never_claims_program_list_witness :
    nhkForSchoolSubjectSuitable "https://www.nhk.or.jp/school/sougou/q/" = false ∧
    nhkForSchoolProgramListSuitable "https://www.nhk.or.jp/school/sougou/q/" = true :=
  subject_never_claims_program_list "https://www.nhk.or.jp/school/sougou/q/"
    (by decide)

/-! ## Paginated playlist drains

`MildomUserVodIE._real_extract` (mildom.py lines 287-298):

    for page in itertools.count(1):
        reply = self._call_api('...playbackList', ..., query={..., 'page': page, ...})
        if not reply:
            break
        results.extend(... for x in reply)

`TwitCastingUserIE._entries` (twitcasting.py lines 187-203): fetch page,
yield all entries found on it, look for the next-page link and stop when it
is absent.  Both loops are unbounded in the source; the models take a fuel
argument bounding how many iterations are unrolled (`none` = the model ran
out of fuel before the loop stopped), so termination at the end marker is
the statement that the result is `some _` independently of any
sufficiently large fuel. -/

/-- The Mildom page loop started at page `p` (pages indexed from 1; a page
is the `body` list returned by the playbackList API; `if not reply` is
Python truthiness, i.e. the empty list stops the loop). -/
def drainPagesFrom {α : Type} (pages : Nat → List α) : Nat → Nat → Option (List α)
  | 0, _ => none
  | fuel + 1, p =>
    match pages p with
    | [] => some []
    | e :: es =>
      match drainPagesFrom pages fuel (p + 1) with
      | none => none
      | some rest => some ((e :: es) ++ rest)

/-- The result list built by `MildomUserVodIE._real_extract`'s loop. -/
def mildomUserVodPages {α : Type} (pages : Nat → List α) (fuel : Nat) :
    Option (List α) :=
  drainPagesFrom pages fuel 1

/-- One page of a TwitCasting `/show` listing: the movie links found on the
page, and the next-page link if the page has one. -/
structure TCShowPage (α : Type) where
  entries : List α
  nextUrl : Option String

/-- The TwitCasting page loop started at page `p`: the current page's
entries are always yielded, then the loop stops if the next-page link is
absent. -/
def tcEntriesFrom {α : Type} (pages : Nat → TCShowPage α) :
    Nat → Nat → Option (List α)
  | 0, _ => none
  | fuel + 1, p =>
    match (pages p).nextUrl with
    | none => some (pages p).entries
    | some _ =>
      match tcEntriesFrom pages fuel (p + 1) with
      | none => none
      | some rest => some ((pages p).entries ++ rest)

/-- The entry sequence produced by `TwitCastingUserIE._entries`. -/
def twitCastingUserEntries {α : Type} (pages : Nat → TCShowPage α) (fuel : Nat) :
    Option (List α) :=
  tcEntriesFrom pages fuel 1

/-- `pages start ++ pages (start+1) ++ ... ++ pages (start+n-1)`. -/
def pagesJoin {α : Type} (pages : Nat → List α) (start : Nat) : Nat → List α
  | 0 => []
  | n + 1 => pages start ++ pagesJoin pages (start + 1) n

theorem drainPagesFrom_eq (pages : Nat → List α) :
    ∀ (n p fuel : Nat), (∀ i, i < n → pages (p + i) ≠ []) → pages (p + n) = [] →
      n < fuel → drainPagesFrom pages fuel p = some (pagesJoin pages p n) := by
  intro n
  induction n with
  | zero =>
    intro p fuel _ hempty hf
    match fuel, hf with
    | f + 1, _ =>
      have h0 : pages p = [] := by simpa using hempty
      simp [drainPagesFrom, h0, pagesJoin]
  | succ n ih =>
    intro p fuel hne hempty hf
    match fuel, hf with
    | f + 1, hf =>
      have hp : pages p ≠ [] := by simpa using hne 0 (Nat.succ_pos n)
      have hrec := ih (p + 1) f
        (fun i hi => by
          have := hne (i + 1) (Nat.succ_lt_succ hi)
          simpa [Nat.add_assoc, Nat.add_comm 1 i] using this)
        (by simpa [Nat.add_assoc, Nat.add_comm 1 n] using hempty)
        (Nat.lt_of_succ_lt_succ hf)
      rcases hq : pages p with _ | ⟨e, es⟩
      · exact absurd hq hp
      · simp [drainPagesFrom, hq, hrec, pagesJoin]

theorem tcEntriesFrom_eq (pages : Nat → TCShowPage α) :
    ∀ (n p fuel : Nat), (∀ i, i < n → (pages (p + i)).nextUrl ≠ none) →
      (pages (p + n)).nextUrl = none → n < fuel →
      tcEntriesFrom pages fuel p =
        some (pagesJoin (fun i => (pages i).entries) p (n + 1)) := by
  intro n
  induction n with
  | zero =>
    intro p fuel _ hend hf
    match fuel, hf with
    | f + 1, _ => simp [tcEntriesFrom, pagesJoin, (by simpa using hend :
        (pages p).nextUrl = none)]
  | succ n ih =>
    intro p fuel hne hend hf
    match fuel, hf with
    | f + 1, hf =>
      have hp : (pages p).nextUrl ≠ none := by simpa using hne 0 (Nat.succ_pos n)
      have hrec := ih (p + 1) f
        (fun i hi => by
          have := hne (i + 1) (Nat.succ_lt_succ hi)
          simpa [Nat.add_assoc, Nat.add_comm 1 i] using this)
        (by simpa [Nat.add_assoc, Nat.add_comm 1 n] using hend)
        (Nat.lt_of_succ_lt_succ hf)
      rcases hnu : (pages p).nextUrl with _ | u
      · exact absurd hnu hp
      · simp [tcEntriesFrom, hnu, hrec, pagesJoin]

/-- C7: both paginated drains fetch pages in increasing order starting at
page 1 and yield exactly the concatenation of the pages' entries in source
order, stopping at the end marker: the Mildom VOD loop stops at the first
empty page (whose entries are not part of the result), and the TwitCasting
`/show` loop stops at the first page with no next-page link (whose entries
are part of the result); in both cases the result is independent of the
fuel bound once it exceeds the stopping page, which is the statement that
the loop terminates there. -/
theorem paginated_drain_concat {α : Type} (pages : Nat → List α)
    (tcPages : Nat → TCShowPage α) (n m fuel : Nat)
    (hne : ∀ i, i < n → pages (1 + i) ≠ []) (hempty : pages (1 + n) = [])
    (hnf : n < fuel)
    (htc : ∀ i, i < m → (tcPages (1 + i)).nextUrl ≠ none)
    (htcEnd : (tcPages (1 + m)).nextUrl = none) (hmf : m < fuel) :
    mildomUserVodPages pages fuel = some (pagesJoin pages 1 n) ∧
    twitCastingUserEntries tcPages fuel =
      some (pagesJoin (fun i => (tcPages i).entries) 1 (m + 1)) :=
  ⟨drainPagesFrom_eq pages n 1 fuel hne hempty hnf,
   tcEntriesFrom_eq tcPages m 1 fuel htc htcEnd hmf⟩

/-- Concrete page sequences for the C7 witness: `[[a,b],[c],[]]`. -/
def pagesEx : Nat → List String := fun p =>
  if p = 1 then ["a", "b"] else if p = 2 then ["c"] else []

/-- Concrete TwitCasting `/show` pages for the C7 witness: page 1 has
entries `[a,b]` and a next link, page 2 has `[c]` and none. -/
def tcPagesEx : Nat → TCShowPage String := fun p =>
  if p = 1 then ⟨["a", "b"], some "/user/show/1-20"⟩ else ⟨["c"], none⟩

/-- C7 witness: pages `[[a,b],[c],[]]` yield exactly `[a,b,c]` in both
models, already at fuel 3. -/
theorem paginated_drain_concat_witness :
    mildomUserVodPages pagesEx 3 = some ["a", "b", "c"] ∧
    twitCastingUserEntries tcPagesEx 3 = some ["a", "b", "c"] :=
  paginated_drain_concat pagesEx tcPagesEx 2 1 3
    (by decide) (by decide) (by decide) (by decide) (by decide) (by decide)

/-! ## Transparent redirects and the resolution pipeline -/

/-- What an extraction step hands back to the pipeline, as far as redirect
handling is concerned: a terminal media result, or a `url_result` /
`url_transparent` pointing at another URL to be re-resolved
(`TwitCastingLiveIE._real_extract` returns
`self.url_result('https://twitcasting.tv/%s/movie/%s' % ...)`,
twitcasting.py line 177; `NhkBaseIE._extract_episode_info` returns a
`url_transparent` info dict, nhk.py lines 61-68 and 79-84). -/
inductive StepResult where
  | media (id : String)
  | redirect (url : String)
deriving DecidableEq, Repr

/-- Outcome of driving one resolution request. -/
inductive PipeOutcome where
  | done (id : String)
  | noMatch
  | redirectLoop
  | outOfFuel
deriving DecidableEq, Repr

/-- Modelled from the spec: the extraction pipeline's redirect handling,
which lives outside `src/` — "Handler returns RedirectResult → re-run
Start with the new URL/hint"; per spec §4.5 "the source has no such guard
today", i.e. re-resolution recurses with no depth cap and no
`RedirectLoop` error path.  `fuel` only bounds how far the model unrolls
that recursion (`.outOfFuel` = still redirecting); no branch ever
produces `.redirectLoop`. -/
def resolvePipeline (handler : String → Option StepResult) :
    Nat → String → PipeOutcome
  | 0, _ => PipeOutcome.outOfFuel
  | fuel + 1, url =>
    match handler url with
    | none => PipeOutcome.noMatch
    | some (StepResult.media i) => PipeOutcome.done i
    | some (StepResult.redirect u) => resolvePipeline handler fuel u

/-- `TwitCastingLiveIE._real_extract` (twitcasting.py lines 164-177): look
for the current live id in the page; raise when the user is not live;
otherwise emit a `url_result` redirect to the movie URL. -/
def twitCastingLiveExtract (uploader_id : String) (current_live : Option String) :
    Except String StepResult :=
  match current_live with
  | none => Except.error "The user is not currently live"
  | some lid =>
    Except.ok (StepResult.redirect
      ("https://twitcasting.tv/" ++ uploader_id ++ "/movie/" ++ lid))

/-- C8, counterexample: a handler chain that redirects to itself is *not*
rejected with `RedirectLoop`: after 100 re-resolutions of the same URL the
pipeline is still redirecting (`outOfFuel`), so no small fixed depth cap
rejected it. -/
theorem redirect_self_loop_not_rejected :
    resolvePipeline (fun u => some (StepResult.redirect u)) 100
        "https://twitcasting.tv/user" = PipeOutcome.outOfFuel ∧
    resolvePipeline (fun u => some (StepResult.redirect u)) 100
        "https://twitcasting.tv/user" ≠ PipeOutcome.redirectLoop := by
  constructor
  · decide
  · decide

/-- C8 (amended): transparent-redirect resolution is *not* depth-bounded:
the pipeline has no recursion-depth guard and no `RedirectLoop` error, so
a handler chain that redirects to itself (such as the `url_result`
redirects emitted by `TwitCastingLiveIE`) is never rejected — for every
unrolling depth the resolution is still running (`outOfFuel`), i.e. it
loops until resources are exhausted. -/
theorem redirect_self_loop_unbounded (fuel : Nat) (url : String) :
    resolvePipeline (fun u => some (StepResult.redirect u)) fuel url =
      PipeOutcome.outOfFuel ∧
    ∀ uid lid, twitCastingLiveExtract uid (some lid) =
      Except.ok (StepResult.redirect
        ("https://twitcasting.tv/" ++ uid ++ "/movie/" ++ lid)) := by
  refine ⟨?_, fun uid lid => rfl⟩
  induction fuel generalizing url with
  | zero => rfl
  | succ f ih => simpa [resolvePipeline] using ih url

/-! ## `TwitCastingIE._real_extract` (twitcasting.py lines 68-154) -/

/-- The parts of the downloaded TwitCasting movie page that
`_real_extract` inspects. -/
structure TCPage where
  /-- `_html_search_meta(['og:title', 'twitter:title'], x, fatal=False)`:
  `none` when no such meta tag exists. -/
  ogTitle : Option String
  /-- `video_js_data['source']['url']` from the `data-movie-playlist`
  attribute, when present and well-shaped. -/
  videoJsSourceUrl : Option String
  /-- The `data-movie-url` attribute. -/
  dataMovieUrl : Option String
  /-- Whether `'data-status="online"'` occurs in the page. -/
  statusOnline : Bool

/-- One entry of the format list (the fields this model needs). -/
structure TCFormat where
  url : Option String
  format_id : String
  protocol : String
deriving DecidableEq, Repr

/-- The info dict returned by `TwitCastingIE._real_extract` (the fields
this model needs). -/
structure TCMediaResult where
  id : String
  title : String
  uploader_id : String
  formats : List TCFormat
  is_live : Bool

/-- `TwitCastingIE._real_extract`: fail when no title is found (`if not
title` is Python truthiness, so an empty title also fails); compute
`is_live` from the page status; pick the m3u8 URL from the first usable of
`data-movie-url`, the playlist JSON's source URL, and — only when live —
the synthesized `metastream.m3u8` URL; build the format list from the
m3u8 manifest when live (`m3u8Formats` is `_extract_m3u8_formats`'s
result) and as a single direct `hls` entry otherwise; and return the info
dict, whose `'is_live'` field is the literal `True` (twitcasting.py line
153) whatever `is_live` was. -/
def twitCastingExtract (page : TCPage) (m3u8Formats : List TCFormat)
    (uploader_id video_id : String) : Except String TCMediaResult :=
  match page.ogTitle with
  | none => Except.error "Failed to extract title"
  | some title =>
    if title = "" then Except.error "Failed to extract title"
    else
      let is_live := page.statusOnline
      let m3u8_url : Option String :=
        (page.dataMovieUrl.orElse fun _ =>
          (page.videoJsSourceUrl.orElse fun _ =>
            if is_live then
              some ("https://twitcasting.tv/" ++ uploader_id ++ "/metastream.m3u8")
            else none))
      let formats : List TCFormat :=
        if is_live then m3u8Formats
        else [{ url := m3u8_url, format_id := "hls", protocol := "m3u8" }]
      Except.ok
        { id := video_id, title := title, uploader_id := uploader_id,
          formats := formats, is_live := true }

/-- C9: every successful `TwitCastingIE` extraction returns an info dict
with `is_live = true`, whatever the page reported: the internally computed
liveness flag only selects how the format list is built (manifest
expansion when live, one direct entry otherwise) and never reaches the
returned `is_live` field. -/
theorem twitcasting_always_live (page : TCPage) (m3u8Formats : List TCFormat)
    (uploader_id video_id : String) (r : TCMediaResult)
    (h : twitCastingExtract page m3u8Formats uploader_id video_id = Except.ok r) :
    r.is_live = true := by
  unfold twitCastingExtract at h
  rcases hO : page.ogTitle with _ | t
  · rw [hO] at h; cases h
  · rw [hO] at h
    by_cases ht : t = ""
    · simp [ht] at h
    · simp only [ht, if_false, reduceIte] at h
      cases h
      rfl

/-- C9 witness: a page whose status is *not* online (`statusOnline :=
false`) still extracts successfully with `is_live = true`. -/
theorem twitcasting_always_live_witness :
    ({ id := "123", title := "Live #123", uploader_id := "uid",
       formats := [{ url := some "https://dl.twitcasting.tv/x/movie.m3u8",
                     format_id := "hls", protocol := "m3u8" }],
       is_live := true } : TCMediaResult).is_live = true :=
  twitcasting_always_live
    { ogTitle := some "Live #123", videoJsSourceUrl := none,
      dataMovieUrl := some "https://dl.twitcasting.tv/x/movie.m3u8",
      statusOnline := false }
    [] "uid" "123" _ rfl

end YtdlPatched
